import Mathlib

/-!
# Verification of the agent backend (session state machine, planner, toolbox)

Shallow embedding of `backend/main.py` (and its duplicated modules
`backend/core/brain.py`, `backend/core/toolbox.py`, which contain the same
`Brain` and `Toolbox` code).  External collaborators (the inference service,
the websocket channel, Playwright, the filesystem) are modelled as oracles:
functions or event streams supplying the outcome of each external call.
Everything that the code of the repository computes is translated directly.
-/

/-- Python string method `startswith`, on the character sequence. -/
def strStartsWith (hay pre : String) : Bool :=
  pre.data.isPrefixOf hay.data

/-- Python `needle in hay` substring test, on the character sequence. -/
def strContains (hay needle : String) : Bool :=
  hay.data.tails.any (fun t => needle.data.isPrefixOf t)

/-- Chat message roles used in `Brain.history`. -/
inductive Role where
  | system
  | user
  | assistant
deriving DecidableEq, Repr

/-- One entry of `Brain.history`: `{"role": ..., "content": ...}`. -/
structure Message where
  role : Role
  content : String
deriving DecidableEq, Repr

/-- JSON values, the possible results of `json.loads` on the model output. -/
inductive Json where
  | null : Json
  | bool : Bool → Json
  | num : Int → Json
  | str : String → Json
  | arr : List Json → Json
  | obj : List (String × Json) → Json

mutual

/-- Serialization of a JSON value, modelling `json.dumps` (the `indent=2`
whitespace of the Python call is not reproduced; nothing proved below
depends on the rendered text). -/
def Json.dumps : Json → String
  | .null => "null"
  | .bool b => if b then "true" else "false"
  | .num n => toString n
  | .str s => "\x22" ++ s ++ "\x22"
  | .arr xs => "[" ++ String.intercalate ", " (Json.dumpsList xs) ++ "]"
  | .obj fs => "\x7b" ++ String.intercalate ", " (Json.dumpsFields fs) ++ "\x7d"

def Json.dumpsList : List Json → List String
  | [] => []
  | x :: xs => Json.dumps x :: Json.dumpsList xs

def Json.dumpsFields : List (String × Json) → List String
  | [] => []
  | (k, v) :: fs => ("\x22" ++ k ++ "\x22: " ++ Json.dumps v) :: Json.dumpsFields fs

end

/-- Python `==` between a decoded JSON value and a string literal
(`action == "finish_task"`): true only for an equal `str`. -/
def Json.pyEqStr (j : Json) (s : String) : Bool :=
  match j with
  | .str t => t = s
  | _ => false

/-- Python rendering of a decoded JSON value inside an f-string
(`f"... {action} ..."`).  For a `str` this is the string itself; composite
values are rendered through the serializer (approximating `str()` of a
Python container, whose exact punctuation nothing below depends on). -/
def Json.pyRepr : Json → String
  | .str s => s
  | .num n => toString n
  | .bool b => if b then "True" else "False"
  | .null => "None"
  | .arr xs => Json.dumps (.arr xs)
  | .obj fs => Json.dumps (.obj fs)

/-- Python `"action" in next_step` where `next_step` is the decoded JSON:
key membership for a dict, substring test for a string, element membership
for a list, and a `TypeError` for the non-iterable scalars. -/
def Json.pyContains (j : Json) (k : String) : Except String Bool :=
  match j with
  | .obj fs => .ok (List.lookup k fs).isSome
  | .str t => .ok (strContains t k)
  | .arr xs => .ok (xs.any (fun x => x.pyEqStr k))
  | .num _ => .error "TypeError: argument of type \x27int\x27 is not iterable"
  | .bool _ => .error "TypeError: argument of type \x27bool\x27 is not iterable"
  | .null => .error "TypeError: argument of type \x27NoneType\x27 is not iterable"

/-- Python `next_step["action"]`: dict item access, raising on non-dicts. -/
def Json.pyGetItem (j : Json) (k : String) : Except String Json :=
  match j with
  | .obj fs =>
    match List.lookup k fs with
    | some v => .ok v
    | none => .error ("KeyError: " ++ k)
  | .str _ => .error "TypeError: string indices must be integers"
  | .arr _ => .error "TypeError: list indices must be integers, not str"
  | _ => .error "TypeError: object is not subscriptable"

/-- Python `next_step.get(k, default)` (reached only on dicts). -/
def Json.pyGet (j : Json) (k : String) (dflt : Json) : Json :=
  match j with
  | .obj fs => (List.lookup k fs).getD dflt
  | _ => dflt

/-- The fixed tool schema returned by `Toolbox.get_tools_json_schema`. -/
def Toolbox.get_tools_json_schema : Json :=
  .obj
    [ ("list_files", .obj [("description", .str "Lists files in a directory."),
        ("params", .obj [("path", .obj [("type", .str "string")])])]),
      ("read_file", .obj [("description", .str "Reads a file."),
        ("params", .obj [("path", .obj [("type", .str "string")])])]),
      ("write_file", .obj [("description", .str "Writes to a file."),
        ("params", .obj [("path", .obj [("type", .str "string")]),
          ("content", .obj [("type", .str "string")])])]),
      ("browser_attach", .obj [("description",
          .str "Attaches to a user\x27s running browser via CDP endpoint."),
        ("params", .obj [("cdp_url", .obj [("type", .str "string")])])]),
      ("browser_navigate", .obj [("description", .str "Navigates to a URL."),
        ("params", .obj [("url", .obj [("type", .str "string")])])]),
      ("browser_click", .obj [("description", .str "Clicks an element on the page."),
        ("params", .obj [("selector", .obj [("type", .str "string")])])]),
      ("browser_type_text", .obj [("description", .str "Types text into an element."),
        ("params", .obj [("selector", .obj [("type", .str "string")]),
          ("text", .obj [("type", .str "string")])])]),
      ("browser_type_and_submit", .obj [("description",
          .str "Types text and clicks a submit button."),
        ("params", .obj [("type_selector", .obj [("type", .str "string")]),
          ("text", .obj [("type", .str "string")]),
          ("submit_selector", .obj [("type", .str "string")])])]),
      ("browser_wait_for_response", .obj [("description",
          .str "Waits for a specific element to appear on the page."),
        ("params", .obj [("selector", .obj [("type", .str "string")]),
          ("timeout", .obj [("type", .str "integer"),
            ("description", .str "Timeout in milliseconds")])])]),
      ("browser_extract_text", .obj [("description",
          .str "Extracts HTML content from the page."),
        ("params", .obj [])]),
      ("finish_task", .obj [("description", .str "Call when the task is complete."),
        ("params", .obj [("reason", .obj [("type", .str "string")])])]) ]

/-- `Brain._get_system_prompt`: the fixed instruction template with the
serialized tool schema spliced in. -/
def Brain.get_system_prompt (tools_schema : Json) : String :=
  "\nYou are a helpful AI assistant. Your goal is to solve the user\x27s task by thinking step-by-step and using tools.\nYou must always output your response in a valid JSON format.\nWhen the user gives you a new instruction, you must stop your current plan and address the new instruction.\nAvailable tools:\n"
    ++ Json.dumps tools_schema ++ "\n"

/-- `Brain.initialize_history(toolbox)`: the log reset to the single System
message built from the tool schema. -/
def Brain.initialize_history : List Message :=
  [⟨.system, Brain.get_system_prompt Toolbox.get_tools_json_schema⟩]

/-- `Brain.add_user_message`. -/
def Brain.add_user_message (history : List Message) (message : String) : List Message :=
  history ++ [⟨.user, message⟩]

/-- `Brain.step(last_action_result)`.  The inference transport and the JSON
decoder are oracles: `chat` is the outcome of `self.client.chat(...)`
(`ok` content, or `error` for a raised transport exception) and `decode`
is `json.loads` (`none` for `json.JSONDecodeError`).  Returns the history
as mutated by the call together with the returned value, or the message of
an exception that propagates out of `step`.  `if last_action_result:` is
Python truthiness: `None` and the empty string both skip the append. -/
def Brain.step (decode : String → Option Json) (history : List Message)
    (last_action_result : Option String) (chat : Except String String) :
    List Message × Except String Json :=
  let h1 := match last_action_result with
    | some s => if s = "" then history else history ++ [⟨.user, "Tool output: " ++ s⟩]
    | none => history
  match chat with
  | .error e => (h1, .error e)
  | .ok response_content =>
    let h2 := h1 ++ [⟨.assistant, response_content⟩]
    match decode response_content with
    | some j => (h2, .ok j)
    | none => (h2, .ok (Json.obj [("thought", Json.str response_content)]))

/-- One operation on an initialized `Brain` log. -/
inductive BrainOp where
  | addUser (s : String)
  | stepOp (last_action_result : Option String) (chat : Except String String)

/-- Apply one `BrainOp` to the history. -/
def Brain.applyOp (decode : String → Option Json) (history : List Message) :
    BrainOp → List Message
  | .addUser s => Brain.add_user_message history s
  | .stepOp last chat => (Brain.step decode history last chat).1

/-- Run a sequence of `BrainOp`s. -/
def Brain.runOps (decode : String → Option Json) (history : List Message) :
    List BrainOp → List Message
  | [] => history
  | op :: ops => Brain.runOps decode (Brain.applyOp decode history op) ops

/-- A side-effecting Playwright call performed by a browser tool. -/
inductive BrowserEff where
  | click (selector : String)
  | fill (selector : String) (text : String)
  | waitFor (selector : String) (timeout : Int)
deriving DecidableEq, Repr

/-- Oracle for the attached Playwright page: outcomes of the external calls
a tool makes.  `getAttr sel name` is `locator(sel).first.get_attribute(name)`
(`error` = the call raised, e.g. no element within the locator timeout);
for the interaction runners, `none` = the call succeeded and `some e` = it
raised an exception rendered as `e`. -/
structure PageModel where
  getAttr : String → String → Except String (Option String)
  clickRun : String → Option String
  fillRun : String → String → Option String
  waitRun : String → Int → Option String

/-- `Toolbox.browser_click`.  First component: the string the coroutine
returns, or `error` when an exception escapes it (the `get_attribute` call
sits outside the `try`).  Second component: the Playwright interactions
actually performed. -/
def Toolbox.browser_click (page : Option PageModel) (selector : String) :
    Except String String × List BrowserEff :=
  match page with
  | none => (.ok "Error: Not attached to a browser.", [])
  | some p =>
    match p.getAttr selector "type" with
    | .error e => (.error e, [])
    | .ok t =>
      if t = some "password" then (.ok "PAUSE: Password field detected.", [])
      else
        match p.clickRun selector with
        | none => (.ok ("Clicked on \x27" ++ selector ++ "\x27."), [.click selector])
        | some e => (.ok ("Error clicking element: " ++ e), [.click selector])

/-- `Toolbox.browser_type_text`. -/
def Toolbox.browser_type_text (page : Option PageModel) (selector text : String) :
    Except String String × List BrowserEff :=
  match page with
  | none => (.ok "Error: Not attached to a browser.", [])
  | some p =>
    match p.getAttr selector "type" with
    | .error e => (.error e, [])
    | .ok t =>
      if t = some "password" then (.ok "PAUSE: Password field detected.", [])
      else
        match p.fillRun selector text with
        | none => (.ok ("Typed text into \x27" ++ selector ++ "\x27."), [.fill selector text])
        | some e => (.ok ("Error typing text: " ++ e), [.fill selector text])

/-- `Toolbox.browser_type_and_submit`. -/
def Toolbox.browser_type_and_submit (page : Option PageModel)
    (type_selector text submit_selector : String) :
    Except String String × List BrowserEff :=
  match Toolbox.browser_type_text page type_selector text with
  | (.error e, effs) => (.error e, effs)
  | (.ok type_result, effs) =>
    if strContains type_result "PAUSE" || strContains type_result "Error" then
      (.ok type_result, effs)
    else
      match Toolbox.browser_click page submit_selector with
      | (.error e, effs2) => (.error e, effs ++ effs2)
      | (.ok click_result, effs2) =>
        if strContains click_result "Error" then
          (.ok ("Text typed, but submit failed: " ++ click_result), effs ++ effs2)
        else
          (.ok "Successfully typed and submitted.", effs ++ effs2)

/-- `Toolbox.browser_wait_for_response` (default `timeout=30000`). -/
def Toolbox.browser_wait_for_response (page : Option PageModel) (selector : String)
    (timeout : Int := 30000) : Except String String × List BrowserEff :=
  match page with
  | none => (.ok "Error: Not attached to a browser.", [])
  | some p =>
    match p.waitRun selector timeout with
    | none => (.ok ("Element \x27" ++ selector ++ "\x27 appeared."), [.waitFor selector timeout])
    | some e =>
      (.ok ("Error waiting for \x27" ++ selector ++ "\x27: " ++ e), [.waitFor selector timeout])

/-- A filesystem call performed by a file tool. -/
inductive FsEff where
  | listdir (path : String)
  | readF (path : String)
  | writeF (path : String) (content : String)
deriving DecidableEq, Repr

/-- Oracle for the filesystem: `listdirRun` is `os.listdir`, `readRun` is
`open(path).read()`, `pathExists` is `os.path.exists`, and `writeRun` is
`open(path, "w").write(content)` (`none` = success, `some e` = raised). -/
structure FsModel where
  listdirRun : String → Except String (List String)
  readRun : String → Except String String
  pathExists : String → Bool
  writeRun : String → String → Option String

/-- `Toolbox.list_files` (default `path="."`): returned string plus the
filesystem calls performed. -/
def Toolbox.list_files (fs : FsModel) (path : String := ".") : String × List FsEff :=
  if strContains path ".." || strStartsWith path "/" then
    ("Error: Access to parent or absolute directories is not allowed.", [])
  else
    match fs.listdirRun path with
    | .ok names => (String.intercalate "\n" names, [.listdir path])
    | .error e => ("Error listing files: " ++ e, [.listdir path])

/-- `Toolbox.read_file`. -/
def Toolbox.read_file (fs : FsModel) (path : String) : String × List FsEff :=
  if strContains path ".." || strStartsWith path "/" then
    ("Error: Access to parent or absolute directories is not allowed.", [])
  else
    match fs.readRun path with
    | .ok content => (content, [.readF path])
    | .error e => ("Error reading file: " ++ e, [.readF path])

/-- `Toolbox.write_file`, with `PROTECTED_FILES` (loaded from config) passed
explicitly. -/
def Toolbox.write_file (fs : FsModel) (protected_files : List String)
    (path content : String) : String × List FsEff :=
  if strContains path ".." || strStartsWith path "/" then
    ("Error: Access to parent or absolute directories is not allowed.", [])
  else if fs.pathExists path && protected_files.contains path then
    ("Error: Overwriting \x27" ++ path ++ "\x27 is not allowed.", [])
  else
    match fs.writeRun path content with
    | none => ("File \x27" ++ path ++ "\x27 written successfully.", [.writeF path content])
    | some e => ("Error writing file: " ++ e, [.writeF path content])

/-- The keys of `tool_map` in `Toolbox.execute_tool` (note `finish_task`
is not among them). -/
def toolNames : List String :=
  ["list_files", "read_file", "write_file",
   "browser_attach", "browser_navigate",
   "browser_click", "browser_type_text",
   "browser_type_and_submit",
   "browser_wait_for_response",
   "browser_extract_text"]

/-- `Toolbox.execute_tool` for a string tool name: raises
`ValueError(f"Unknown tool: {tool_name}")` on a map miss, otherwise runs
the looked-up tool, whose outcome is the oracle `run`. -/
def Toolbox.execute_tool (run : String → Json → Except String String)
    (tool_name : String) (params : Json) : Except String String :=
  if tool_name ∈ toolNames then run tool_name params
  else .error ("Unknown tool: " ++ tool_name)

/-- The message of the exception `execute_tool` raises for a non-string or
unknown action value: `ValueError` for hashable misses, `TypeError` for
unhashable dict-key probes. -/
def unknownToolMsg : Json → String
  | .str n => "Unknown tool: " ++ n
  | .num k => "Unknown tool: " ++ toString k
  | .bool b => "Unknown tool: " ++ (if b then "True" else "False")
  | .null => "Unknown tool: None"
  | .arr _ => "TypeError: unhashable type: \x27list\x27"
  | .obj _ => "TypeError: unhashable type: \x27dict\x27"

/-- An outbound frame `websocket.send_json(...)` of `execute_task_ws`. -/
inductive Frame where
  | plannerOut (j : Json)
  | status (message : String)
  | actionResult (tool : String) (output : String)
  | pause (message : String)
  | error (message : String)

/-- Control position of the `execute_task_ws` loop, between two external
interactions.  Each constructor is the await the coroutine is suspended at:
`idle` = the outer `websocket.receive_text()`, `planning` = the
`brain.step(last_result)` chat call, `dispatch` = the pending
`toolbox.execute_tool` call of a registered tool, `paused` = the
`receive_text()` after a `PAUSE:` result, `poll` = the
`asyncio.wait_for(receive_text(), timeout=0.01)` interrupt check,
`closed` = loop exited via `break`, `crashed` = an exception escaped the
loop (session torn down). -/
inductive Phase where
  | idle
  | planning (last_result : Option String)
  | dispatch (tool : String) (params : Json)
  | paused
  | poll (last_result : Option String)
  | closed
  | crashed (msg : String)

/-- Session state: the Brain history plus the control position. -/
structure Config where
  history : List Message
  phase : Phase

/-- One completed external interaction, consumed by the machine at the
matching suspension point: a received websocket frame, a poll timeout, a
chat-call outcome, or a tool-call outcome. -/
inductive Ev where
  | recv (s : String)
  | pollTimeout
  | chat (r : Except String String)
  | tool (r : Except String String)

/-- The synchronous code of `execute_task_ws` between `brain.step`
returning `next_step` and the next suspension: send the frame, intercept
`finish_task`, start the dispatch of a registered tool, or fail the
`tool_map` lookup inside the `try`, feeding the error into `last_result`. -/
def Session.handlePlannerOut (h2 : List Message) (j : Json) : Config × List Frame :=
  match j.pyContains "action" with
  | .error e => (⟨h2, .crashed e⟩, [.plannerOut j])
  | .ok false => (⟨h2, .poll none⟩, [.plannerOut j])
  | .ok true =>
    match j.pyGetItem "action" with
    | .error e => (⟨h2, .crashed e⟩, [.plannerOut j])
    | .ok action =>
      let params := j.pyGet "params" (.obj [])
      if action.pyEqStr "finish_task" then (⟨h2, .idle⟩, [.plannerOut j])
      else
        match action with
        | .str n =>
          if n ∈ toolNames then (⟨h2, .dispatch n params⟩, [.plannerOut j])
          else
            let msg := "Error executing tool " ++ n ++ ": Unknown tool: " ++ n
            (⟨h2, .poll (some msg)⟩, [.plannerOut j, .error msg])
        | a =>
          let msg := "Error executing tool " ++ a.pyRepr ++ ": " ++ unknownToolMsg a
          (⟨h2, .poll (some msg)⟩, [.plannerOut j, .error msg])

/-- One step of the `execute_task_ws` state machine: from the suspension
point encoded in `c.phase`, consume the matching event and run the
synchronous code up to the next suspension, collecting the frames sent.
`none` when the event kind is not the one the coroutine is awaiting. -/
def Session.step (decode : String → Option Json) (c : Config) (e : Ev) :
    Option (Config × List Frame) :=
  match c.phase, e with
  | .idle, .recv s =>
    if s = "stop" then some (⟨c.history, .closed⟩, [.status "Agent stopped by user."])
    else some (⟨Brain.add_user_message c.history s, .planning none⟩, [])
  | .planning lr, .chat r =>
    let st := Brain.step decode c.history lr r
    match st.2 with
    | .error e => some (⟨st.1, .crashed e⟩, [])
    | .ok j => some (Session.handlePlannerOut st.1 j)
  | .dispatch n _, .tool r =>
    match r with
    | .error e =>
      let msg := "Error executing tool " ++ n ++ ": " ++ e
      some (⟨c.history, .poll (some msg)⟩, [.error msg])
    | .ok res =>
      if strStartsWith res "PAUSE:" then
        some (⟨c.history, .paused⟩, [.actionResult n res, .pause res])
      else
        some (⟨c.history, .poll (some res)⟩, [.actionResult n res])
  | .paused, .recv s =>
    if s = "resume" then
      some (⟨c.history, .poll (some "User has handled the password field.")⟩,
            [.status "Agent is resuming."])
    else
      some (⟨Brain.add_user_message c.history s, .idle⟩, [])
  | .poll _, .recv s =>
    some (⟨Brain.add_user_message c.history s, .idle⟩,
          [.status "Received new instruction, replanning..."])
  | .poll lr, .pollTimeout => some (⟨c.history, .planning lr⟩, [])
  | _, _ => none

/-- Run the machine over a list of events, collecting all frames sent. -/
def Session.run (decode : String → Option Json) :
    Config → List Ev → Option (Config × List Frame)
  | c, [] => some (c, [])
  | c, e :: es =>
    match Session.step decode c e with
    | none => none
    | some (c2, fs) =>
      match Session.run decode c2 es with
      | none => none
      | some (c3, fs2) => some (c3, fs ++ fs2)

/-- Initial state of a connection: accepted socket, fresh `Brain` with
initialized history, waiting at the outer `receive_text()`. -/
def Session.init : Config :=
  ⟨Brain.initialize_history, .idle⟩


theorem strStartsWith_strContains (hay pre : String)
    (h : strStartsWith hay pre = true) : strContains hay pre = true := by
  unfold strContains
  rw [List.any_eq_true]
  exact ⟨hay.data, (List.mem_tails _ _).mpr (List.suffix_refl _), h⟩

theorem strAppendAssoc (a b c : String) : (a ++ b) ++ c = a ++ (b ++ c) := by
  rcases a with ⟨x⟩; rcases b with ⟨y⟩; rcases c with ⟨z⟩
  exact congrArg String.mk (List.append_assoc x y z)

theorem Session.handlePlannerOut_not_paused (h2 : List Message) (j : Json) :
    (Session.handlePlannerOut h2 j).1.phase ≠ Phase.paused := by
  unfold Session.handlePlannerOut
  repeat' split
  all_goals simp

theorem Session.step_not_paused (decode : String → Option Json) (c : Config) (e : Ev)
    (c2 : Config) (fs : List Frame)
    (hstep : Session.step decode c e = some (c2, fs))
    (he : ∀ s, e = Ev.tool (Except.ok s) → strStartsWith s "PAUSE:" = false) :
    c2.phase ≠ Phase.paused := by
  intro hp
  obtain ⟨hist, ph⟩ := c
  cases ph <;> cases e <;> simp only [Session.step] at hstep <;>
    try exact Option.noConfusion hstep
  case idle.recv s =>
    split at hstep <;>
      (simp only [Option.some.injEq, Prod.mk.injEq] at hstep;
       rw [← hstep.1] at hp; exact Phase.noConfusion hp)
  case planning.chat lr r =>
    split at hstep
    · simp only [Option.some.injEq, Prod.mk.injEq] at hstep
      rw [← hstep.1] at hp; exact Phase.noConfusion hp
    · next j hj =>
      have h := Option.some.inj hstep
      have h2 := Session.handlePlannerOut_not_paused (Brain.step decode hist lr r).1 j
      rw [h] at h2
      exact h2 hp
  case dispatch.tool n params r =>
    split at hstep
    · simp only [Option.some.injEq, Prod.mk.injEq] at hstep
      rw [← hstep.1] at hp; exact Phase.noConfusion hp
    · next res =>
      have hres : strStartsWith res "PAUSE:" = false := he res rfl
      rw [hres] at hstep
      simp only [Bool.false_eq_true, if_false, Option.some.injEq, Prod.mk.injEq] at hstep
      rw [← hstep.1] at hp; exact Phase.noConfusion hp
  case paused.recv s =>
    split at hstep <;>
      (simp only [Option.some.injEq, Prod.mk.injEq] at hstep;
       rw [← hstep.1] at hp; exact Phase.noConfusion hp)
  case poll.recv lr s =>
    simp only [Option.some.injEq, Prod.mk.injEq] at hstep
    rw [← hstep.1] at hp; exact Phase.noConfusion hp
  case poll.pollTimeout lr =>
    simp only [Option.some.injEq, Prod.mk.injEq] at hstep
    rw [← hstep.1] at hp; exact Phase.noConfusion hp

theorem Session.run_not_paused (decode : String → Option Json) :
    ∀ (evs : List Ev) (c : Config),
      c.phase ≠ Phase.paused →
      (∀ s, Ev.tool (Except.ok s) ∈ evs → strContains s "PAUSE:" = false) →
      ∀ c2 fs, Session.run decode c evs = some (c2, fs) → c2.phase ≠ Phase.paused := by
  intro evs
  induction evs with
  | nil =>
    intro c hc _ c2 fs hrun
    simp only [Session.run, Option.some.injEq, Prod.mk.injEq] at hrun
    exact hrun.1 ▸ hc
  | cons e es ih =>
    intro c hc hno c2 fs hrun
    simp only [Session.run] at hrun
    rcases hstep : Session.step decode c e with _ | ⟨c1, fs1⟩
    · simp only [hstep] at hrun
      exact Option.noConfusion hrun
    · simp only [hstep] at hrun
      rcases hrun2 : Session.run decode c1 es with _ | ⟨c3, fs2⟩
      · simp only [hrun2] at hrun
        exact Option.noConfusion hrun
      · simp only [hrun2, Option.some.injEq, Prod.mk.injEq] at hrun
        have hc1 : c1.phase ≠ Phase.paused := by
          apply Session.step_not_paused decode c e c1 fs1 hstep
          intro s hs
          have hcon := hno s (by rw [← hs]; exact List.mem_cons_self e es)
          cases hsw : strStartsWith s "PAUSE:" with
          | false => rfl
          | true => rw [strStartsWith_strContains s "PAUSE:" hsw] at hcon; exact hcon
        exact hrun.1 ▸ ih c1 hc1 (fun s hs => hno s (List.mem_cons_of_mem _ hs)) c3 fs2 hrun2

/-- A concrete stand-in for `json.loads` used to instantiate the
universally-quantified decoder in witnesses: it recognizes a few fixed
model outputs and fails (as `json.loads` does on non-JSON) on the rest. -/
def decodeDemo : String → Option Json
  | "FIN" => some (Json.obj [("action", Json.str "finish_task"),
      ("params", Json.obj [("reason", Json.str "done")])])
  | "ACT" => some (Json.obj [("action", Json.str "read_file"),
      ("params", Json.obj [("path", Json.str "a.txt")])])
  | "BAD" => some (Json.obj [("action", Json.str "nonexistent_tool"),
      ("params", Json.obj [])])
  | _ => none

/-- C1: after a tool execution the Session enters `Paused` — emitting the
`PauseNotice` frame and then accepting only inbound frames, exactly one of
which is consumed before anything else can happen — if and only if the
returned tool text starts with `"PAUSE:"`; a tool call that raises never
pauses; and over every run whose tool results never contain the sentinel,
the machine never reaches `Paused`. -/
theorem c1_pause_iff_sentinel :
    (∀ (decode : String → Option Json) (hist : List Message) (n : String)
        (params : Json) (s : String),
      (strStartsWith s "PAUSE:" = true →
        Session.step decode ⟨hist, .dispatch n params⟩ (.tool (.ok s)) =
          some (⟨hist, .paused⟩, [.actionResult n s, .pause s]))
      ∧ (strStartsWith s "PAUSE:" = false →
        Session.step decode ⟨hist, .dispatch n params⟩ (.tool (.ok s)) =
          some (⟨hist, .poll (some s)⟩, [.actionResult n s])))
  ∧ (∀ (decode : String → Option Json) (hist : List Message) (n : String)
        (params : Json) (e : String),
      Session.step decode ⟨hist, .dispatch n params⟩ (.tool (.error e)) =
        some (⟨hist, .poll (some ("Error executing tool " ++ n ++ ": " ++ e))⟩,
              [.error ("Error executing tool " ++ n ++ ": " ++ e)]))
  ∧ (∀ (decode : String → Option Json) (hist : List Message)
        (r r2 : Except String String),
      Session.step decode ⟨hist, .paused⟩ (.chat r) = none
      ∧ Session.step decode ⟨hist, .paused⟩ (.tool r2) = none
      ∧ Session.step decode ⟨hist, .paused⟩ .pollTimeout = none
      ∧ ∀ s, ∃ out, Session.step decode ⟨hist, .paused⟩ (.recv s) = some out)
  ∧ (∀ (decode : String → Option Json) (evs : List Ev) (c : Config)
        (fs : List Frame),
      (∀ s, Ev.tool (Except.ok s) ∈ evs → strContains s "PAUSE:" = false) →
      Session.run decode Session.init evs = some (c, fs) →
      c.phase ≠ Phase.paused) := by
  refine ⟨?_, ?_, ?_, ?_⟩
  · intro decode hist n params s
    constructor <;> intro h <;> simp [Session.step, h]
  · intro decode hist n params e
    simp [Session.step]
  · intro decode hist r r2
    refine ⟨rfl, rfl, rfl, ?_⟩
    intro s
    by_cases h : s = "resume" <;> simp [Session.step, h]
  · intro decode evs c fs hno hrun
    exact Session.run_not_paused decode evs Session.init (by simp [Session.init]) hno c fs hrun

/-- Witness for C1 at concrete inputs: a pausing tool result, and a
concrete sentinel-free run that ends outside `Paused`. -/
theorem c1_pause_iff_sentinel_witness :
    (Session.step decodeDemo ⟨[], .dispatch "read_file" (Json.obj [])⟩
        (.tool (.ok "PAUSE: Password field detected.")) =
      some (⟨[], .paused⟩,
            [.actionResult "read_file" "PAUSE: Password field detected.",
             .pause "PAUSE: Password field detected."]))
    ∧ (⟨Brain.add_user_message Brain.initialize_history "hi", .planning none⟩ :
        Config).phase ≠ Phase.paused := by
  constructor
  · exact (c1_pause_iff_sentinel.1 decodeDemo [] "read_file" (Json.obj [])
      "PAUSE: Password field detected.").1 (by decide)
  · exact c1_pause_iff_sentinel.2.2.2 decodeDemo [.recv "hi"]
      ⟨Brain.add_user_message Brain.initialize_history "hi", .planning none⟩ []
      (by intro s hs; simp at hs) (by simp [Session.run, Session.step, Session.init])

/-- C3: in `Paused`, the inbound frame `"resume"` sets `last_result` to the
fixed acknowledgment, emits the resuming status, and proceeds to the
interrupt check at the head of planning (from which the timeout leads
straight to the next `Planner.step`); any other inbound text is appended
to the Planner as a user message and the Session returns to `Idle`,
abandoning the paused action. -/
theorem c3_resume_correctness :
    ∀ (decode : String → Option Json) (hist : List Message) (s : String),
      (s = "resume" →
        Session.step decode ⟨hist, .paused⟩ (.recv s) =
          some (⟨hist, .poll (some "User has handled the password field.")⟩,
                [.status "Agent is resuming."]))
      ∧ (s ≠ "resume" →
        Session.step decode ⟨hist, .paused⟩ (.recv s) =
          some (⟨Brain.add_user_message hist s, .idle⟩, []))
      ∧ (∀ lr : Option String,
          Session.step decode ⟨hist, .poll lr⟩ .pollTimeout =
            some (⟨hist, .planning lr⟩, [])) := by
  intro decode hist s
  refine ⟨?_, ?_, ?_⟩
  · intro h; simp [Session.step, h]
  · intro h; simp [Session.step, h]
  · intro lr; rfl

/-- Witness for C3 at the concrete frames `"resume"` and `"look at this"`. -/
theorem c3_resume_correctness_witness :
    (Session.step decodeDemo ⟨[], .paused⟩ (.recv "resume") =
      some (⟨[], .poll (some "User has handled the password field.")⟩,
            [.status "Agent is resuming."]))
    ∧ (Session.step decodeDemo ⟨[], .paused⟩ (.recv "look at this") =
        some (⟨Brain.add_user_message [] "look at this", .idle⟩, [])) :=
  ⟨(c3_resume_correctness decodeDemo [] "resume").1 rfl,
   (c3_resume_correctness decodeDemo [] "look at this").2.1 (by decide)⟩

/-- C4 counterexample: in the concrete run below the interrupt poll finds
`"new instruction"`; the code appends it, emits the replanning status, and
then `break`s to the outer blocking `receive_text()` — the resulting state
is `idle`, from which no chat call (Planner step), tool outcome, or poll
timeout can fire: the next Planner step *does* require an additional
inbound frame, contradicting the claimed "re-entry into Planning bounded
by the new message, without requiring an additional inbound frame". -/
theorem c4_counterexample :
    (Session.run decodeDemo Session.init
        [.recv "t", .chat (.ok "th"), .recv "new instruction"]).map
      (fun p => p.1.phase) = some Phase.idle
  ∧ (Session.run decodeDemo Session.init
        [.recv "t", .chat (.ok "th"), .recv "new instruction"]).map
      (fun p => p.2) =
      some [.plannerOut (Json.obj [("thought", Json.str "th")]),
            .status "Received new instruction, replanning..."]
  ∧ Session.step decodeDemo ⟨[], .idle⟩ (.chat (.ok "th2")) = none
  ∧ Session.step decodeDemo ⟨[], .idle⟩ (.tool (.ok "out")) = none
  ∧ Session.step decodeDemo ⟨[], .idle⟩ .pollTimeout = none :=
  ⟨rfl, rfl, rfl, rfl, rfl⟩

/-- C4 amended: when the interrupt poll finds a pending inbound frame, the
Session appends it to the Planner, emits the `"replanning"` status, and
performs no further Planner step or tool dispatch for the aborted turn —
but it returns to `Idle` and blocks, so the next Planner step occurs only
after one more inbound frame arrives, and is then driven by a log that
already contains the interrupt message.  Preemption still never happens
mid-tool-call: a pending dispatch accepts nothing but its tool outcome. -/
theorem c4_interrupt_amended :
    ∀ (decode : String → Option Json) (hist : List Message)
      (lr : Option String) (s : String),
      Session.step decode ⟨hist, .poll lr⟩ (.recv s) =
        some (⟨Brain.add_user_message hist s, .idle⟩,
              [.status "Received new instruction, replanning..."])
      ∧ (∀ r, Session.step decode ⟨hist, .idle⟩ (.chat r) = none)
      ∧ (∀ r, Session.step decode ⟨hist, .idle⟩ (.tool r) = none)
      ∧ Session.step decode ⟨hist, .idle⟩ .pollTimeout = none
      ∧ (∀ t, t ≠ "stop" →
          Session.step decode ⟨Brain.add_user_message hist s, .idle⟩ (.recv t) =
            some (⟨Brain.add_user_message (Brain.add_user_message hist s) t,
                   .planning none⟩, []))
      ∧ (∀ (n : String) (p : Json) (t : String),
          Session.step decode ⟨hist, .dispatch n p⟩ (.recv t) = none)
      ∧ (∀ (n : String) (p : Json),
          Session.step decode ⟨hist, .dispatch n p⟩ .pollTimeout = none) := by
  intro decode hist lr s
  refine ⟨rfl, fun r => rfl, fun r => rfl, rfl, ?_, fun n p t => rfl, fun n p => rfl⟩
  intro t ht
  simp [Session.step, ht]

/-- Witness for the amended C4 statement at concrete inputs. -/
theorem c4_interrupt_amended_witness :
    Session.step decodeDemo ⟨[], .poll none⟩ (.recv "new instruction") =
      some (⟨Brain.add_user_message [] "new instruction", .idle⟩,
            [.status "Received new instruction, replanning..."])
    ∧ Session.step decodeDemo
        ⟨Brain.add_user_message [] "new instruction", .idle⟩ (.recv "go on") =
        some (⟨Brain.add_user_message (Brain.add_user_message [] "new instruction")
                 "go on", .planning none⟩, []) :=
  ⟨(c4_interrupt_amended decodeDemo [] none "new instruction").1,
   (c4_interrupt_amended decodeDemo [] none "new instruction").2.2.2.2.1
     "go on" (by decide)⟩

/-- C6 counterexample: in the concrete completion run the Planner returns
`{"action": "finish_task", "params": {"reason": "done"}}`; the Session
sends only the planner-output frame and returns to `Idle` — the emitted
frame list contains no status frame at all, contradicting the claim that a
completion/finished-status frame is emitted. -/
theorem c6_counterexample :
    (Session.run decodeDemo Session.init [.recv "t", .chat (.ok "FIN")]).map
      (fun p => p.1.phase) = some Phase.idle
  ∧ (Session.run decodeDemo Session.init [.recv "t", .chat (.ok "FIN")]).map
      (fun p => p.2) =
      some [.plannerOut (Json.obj [("action", Json.str "finish_task"),
              ("params", Json.obj [("reason", Json.str "done")])])] :=
  ⟨rfl, rfl⟩

/-- C6 amended: when a Planner step returns an action named `finish_task`,
the Session emits the action frame of the planner output (as it does for every
planner output), then breaks straight back to `Idle` without dispatching
the action to the tool registry and without emitting any further frame. -/
theorem c6_finish_amended :
    ∀ (decode : String → Option Json) (hist : List Message) (lr : Option String)
      (content : String) (fs : List (String × Json)),
      decode content = some (Json.obj fs) →
      List.lookup "action" fs = some (Json.str "finish_task") →
      Session.step decode ⟨hist, .planning lr⟩ (.chat (.ok content)) =
        some (⟨(Brain.step decode hist lr (.ok content)).1, .idle⟩,
              [.plannerOut (Json.obj fs)]) := by
  intro decode hist lr content fs hdec hlook
  simp [Session.step, Brain.step, hdec, Session.handlePlannerOut,
    Json.pyContains, Json.pyGetItem, hlook, Json.pyEqStr]

/-- Witness for the amended C6 statement at the concrete completion output. -/
theorem c6_finish_amended_witness :
    Session.step decodeDemo ⟨[], .planning none⟩ (.chat (.ok "FIN")) =
      some (⟨(Brain.step decodeDemo [] none (.ok "FIN")).1, .idle⟩,
            [.plannerOut (Json.obj [("action", Json.str "finish_task"),
               ("params", Json.obj [("reason", Json.str "done")])])]) :=
  c6_finish_amended decodeDemo [] none "FIN"
    [("action", Json.str "finish_task"), ("params", Json.obj [("reason", Json.str "done")])]
    rfl rfl

/-- C7: `execute_tool` raises `ValueError("Unknown tool: ...")` for every
name missing from the tool map instead of returning a result; the Session
catches it inside the `try` of the turn, emits an error frame whose message
contains `"Unknown tool"`, stores the failure text as `last_result`, and
carries on to the interrupt poll — from which the timeout leads to the
next Planner step, with the failure text fed back in — without closing. -/
theorem c7_unknown_tool :
    (∀ (run : String → Json → Except String String) (n : String) (params : Json),
      n ∉ toolNames →
      Toolbox.execute_tool run n params = .error ("Unknown tool: " ++ n))
  ∧ (∀ (decode : String → Option Json) (hist : List Message) (lr : Option String)
        (content : String) (fs : List (String × Json)) (n : String),
      decode content = some (Json.obj fs) →
      List.lookup "action" fs = some (Json.str n) →
      n ∉ toolNames → n ≠ "finish_task" →
      Session.step decode ⟨hist, .planning lr⟩ (.chat (.ok content)) =
        some (⟨(Brain.step decode hist lr (.ok content)).1,
               .poll (some ("Error executing tool " ++ n ++ ": Unknown tool: " ++ n))⟩,
              [.plannerOut (Json.obj fs),
               .error ("Error executing tool " ++ n ++ ": Unknown tool: " ++ n)]))
  ∧ (∀ n : String, ∃ pre post,
      ("Error executing tool " ++ n ++ ": Unknown tool: " ++ n : String) =
        pre ++ "Unknown tool" ++ post)
  ∧ (∀ (decode : String → Option Json) (hist : List Message) (msg : String),
      Session.step decode ⟨hist, .poll (some msg)⟩ .pollTimeout =
        some (⟨hist, .planning (some msg)⟩, [])) := by
  refine ⟨?_, ?_, ?_, ?_⟩
  · intro run n params hn
    simp [Toolbox.execute_tool, hn]
  · intro decode hist lr content fs n hdec hlook hn hfin
    simp [Session.step, Brain.step, hdec, Session.handlePlannerOut,
      Json.pyContains, Json.pyGetItem, hlook, Json.pyEqStr, hfin, hn]
  · intro n
    refine ⟨"Error executing tool " ++ n ++ ": ", ": " ++ n, ?_⟩
    have h : (": Unknown tool: " : String) = ": " ++ "Unknown tool" ++ ": " := rfl
    rw [show ("Error executing tool " ++ n ++ ": Unknown tool: " ++ n : String) =
      "Error executing tool " ++ n ++ (": " ++ "Unknown tool" ++ ": ") ++ n from by rw [← h]]
    simp only [strAppendAssoc]
  · intro decode hist msg; rfl

/-- Witness for C7 at the concrete action `nonexistent_tool`. -/
theorem c7_unknown_tool_witness :
    Toolbox.execute_tool (fun _ _ => .ok "ignored") "nonexistent_tool" (Json.obj []) =
      .error ("Unknown tool: " ++ "nonexistent_tool")
    ∧ Session.step decodeDemo ⟨[], .planning none⟩ (.chat (.ok "BAD")) =
      some (⟨(Brain.step decodeDemo [] none (.ok "BAD")).1,
             .poll (some ("Error executing tool " ++ "nonexistent_tool" ++
               ": Unknown tool: " ++ "nonexistent_tool"))⟩,
            [.plannerOut (Json.obj [("action", Json.str "nonexistent_tool"),
               ("params", Json.obj [])]),
             .error ("Error executing tool " ++ "nonexistent_tool" ++
               ": Unknown tool: " ++ "nonexistent_tool")]) :=
  ⟨c7_unknown_tool.1 (fun _ _ => .ok "ignored") "nonexistent_tool" (Json.obj [])
      (by decide),
   c7_unknown_tool.2.1 decodeDemo [] none "BAD"
      [("action", Json.str "nonexistent_tool"), ("params", Json.obj [])]
      "nonexistent_tool" rfl rfl (by decide) (by decide)⟩

/-- C5 counterexample: `Brain.step` has no handler around the
`self.client.chat(...)` call — only `json.JSONDecodeError` is caught.  At
the concrete transport failure below, `step` propagates the exception
instead of returning a Thought, and in the concrete session run the
exception escapes the turn loop: the session is torn down (`crashed`),
no frame is sent, and the turn does not continue. -/
theorem c5_counterexample :
    (Brain.step decodeDemo [] none (.error "connection refused")).2 =
      .error "connection refused"
  ∧ (Session.run decodeDemo Session.init
        [.recv "t", .chat (.error "connection refused")]).map
      (fun p => p.1.phase) = some (Phase.crashed "connection refused")
  ∧ (Session.run decodeDemo Session.init
        [.recv "t", .chat (.error "connection refused")]).map
      (fun p => p.2) = some [] :=
  ⟨rfl, rfl, rfl⟩

/-- C5 amended: `Planner.step` recovers only decode failures — model output
that is not valid JSON is downgraded to a `Thought` wrapping the raw text —
while a failure of the inference-transport call itself propagates uncaught
out of `step`; in the session the escaped exception ends the connection
(the state after it accepts no further event). -/
theorem c5_transport_amended :
    ∀ (decode : String → Option Json) (hist : List Message)
      (lr : Option String) (e content : String),
      (Brain.step decode hist lr (.error e)).2 = .error e
      ∧ (decode content = none →
          (Brain.step decode hist lr (.ok content)).2 =
            .ok (Json.obj [("thought", Json.str content)]))
      ∧ (Session.step decode ⟨hist, .planning lr⟩ (.chat (.error e)) =
          some (⟨(Brain.step decode hist lr (.error e)).1, .crashed e⟩, []))
      ∧ (∀ ev : Ev, Session.step decode ⟨hist, .crashed e⟩ ev = none) := by
  intro decode hist lr e content
  refine ⟨?_, ?_, ?_, ?_⟩
  · cases lr <;> simp [Brain.step]
  · intro hdec; cases lr <;> simp [Brain.step, hdec]
  · cases lr <;> simp [Session.step, Brain.step]
  · intro ev; cases ev <;> rfl

/-- Witness for the amended C5 statement at a concrete transport failure and
a concrete non-JSON model output. -/
theorem c5_transport_amended_witness :
    (Brain.step decodeDemo [] (some "ok") (.error "boom")).2 = .error "boom"
    ∧ (Brain.step decodeDemo [] (some "ok") (.ok "not json")).2 =
        .ok (Json.obj [("thought", Json.str "not json")]) :=
  ⟨(c5_transport_amended decodeDemo [] (some "ok") "boom" "not json").1,
   (c5_transport_amended decodeDemo [] (some "ok") "boom" "not json").2.1 rfl⟩

/-- C8 counterexample: `if last_action_result:` is Python truthiness, so a
non-null but *empty* tool result is silently skipped — at the concrete
call below `last_action_result` is `Some ""` yet the log grows by exactly
one message (only the Assistant response), not two. -/
theorem c8_counterexample :
    (Brain.step decodeDemo [] (some "") (.ok "reply")).1 =
      [⟨.assistant, "reply"⟩]
  ∧ (Brain.step decodeDemo [] (some "") (.ok "reply")).1.length = 1 :=
  ⟨rfl, rfl⟩

/-- C8 amended: on a successful inference call, `Planner.step` appends the
tool-output report (User) and the raw response (Assistant) — the log grows
by exactly 2, in that order — when `last_action_result` is non-null *and
non-empty*; when it is null *or the empty string*, only the Assistant
response is appended and the log grows by exactly 1. -/
theorem c8_log_growth_amended :
    ∀ (decode : String → Option Json) (hist : List Message) (s content : String),
      (s ≠ "" →
        (Brain.step decode hist (some s) (.ok content)).1 =
          hist ++ [⟨.user, "Tool output: " ++ s⟩, ⟨.assistant, content⟩]
        ∧ (Brain.step decode hist (some s) (.ok content)).1.length =
            hist.length + 2)
      ∧ ((Brain.step decode hist none (.ok content)).1 =
          hist ++ [⟨.assistant, content⟩]
        ∧ (Brain.step decode hist none (.ok content)).1.length =
            hist.length + 1)
      ∧ ((Brain.step decode hist (some "") (.ok content)).1 =
          hist ++ [⟨.assistant, content⟩]) := by
  intro decode hist s content
  refine ⟨?_, ⟨?_, ?_⟩, ?_⟩
  · intro hs
    constructor
    · cases hdec : decode content <;> simp [Brain.step, hs, hdec]
    · cases hdec : decode content <;> simp [Brain.step, hs, hdec]
  · cases hdec : decode content <;> simp [Brain.step, hdec]
  · cases hdec : decode content <;> simp [Brain.step, hdec]
  · cases hdec : decode content <;> simp [Brain.step, hdec]

/-- Witness for the amended C8 statement at a concrete non-empty result. -/
theorem c8_log_growth_amended_witness :
    (Brain.step decodeDemo [] (some "file content") (.ok "reply")).1 =
      [⟨.user, "Tool output: file content"⟩, ⟨.assistant, "reply"⟩] := by
  have h := ((c8_log_growth_amended decodeDemo [] "file content" "reply").1
    (by decide)).1
  simpa using h

/-- Any single `Brain` operation only appends to the history. -/
theorem Brain.applyOp_grows (decode : String → Option Json)
    (hist : List Message) (op : BrainOp) :
    hist <+: Brain.applyOp decode hist op := by
  cases op with
  | addUser s => exact ⟨[⟨.user, s⟩], rfl⟩
  | stepOp last chat =>
    cases chat with
    | error e =>
      cases last with
      | none => exact ⟨[], List.append_nil _⟩
      | some s =>
        by_cases hs : s = "" <;> simp [Brain.step, Brain.applyOp, hs]
    | ok content =>
      cases last with
      | none => exact ⟨[⟨.assistant, content⟩], by cases hdec : decode content <;>
          simp [Brain.step, Brain.applyOp, hdec]⟩
      | some s =>
        by_cases hs : s = ""
        · exact ⟨[⟨.assistant, content⟩], by cases hdec : decode content <;>
            simp [Brain.step, Brain.applyOp, hs, hdec]⟩
        · exact ⟨[⟨.user, "Tool output: " ++ s⟩, ⟨.assistant, content⟩],
            by cases hdec : decode content <;>
              simp [Brain.step, Brain.applyOp, hs, hdec]⟩

/-- Any sequence of `Brain` operations only appends to the history. -/
theorem Brain.runOps_grows (decode : String → Option Json) :
    ∀ (ops : List BrainOp) (hist : List Message),
      hist <+: Brain.runOps decode hist ops := by
  intro ops
  induction ops with
  | nil => intro hist; exact ⟨[], List.append_nil _⟩
  | cons op ops ih =>
    intro hist
    exact (Brain.applyOp_grows decode hist op).trans (ih (Brain.applyOp decode hist op))

/-- C9: after `initialize_history`, every sequence of `add_user_message`
and `step` operations (with arbitrary decoder and transport outcomes)
preserves the log invariant: the log before the operations is a prefix of
the log after them — messages are never reordered, removed, modified, or
deduplicated — and the first element is always the System message built
from the tool schema. -/
theorem c9_log_invariant :
    ∀ (decode : String → Option Json) (ops : List BrainOp) (hist : List Message),
      (hist <+: Brain.runOps decode hist ops)
      ∧ (Brain.runOps decode Brain.initialize_history ops).head? =
          some ⟨.system, Brain.get_system_prompt Toolbox.get_tools_json_schema⟩ := by
  intro decode ops hist
  refine ⟨Brain.runOps_grows decode ops hist, ?_⟩
  obtain ⟨t, ht⟩ := Brain.runOps_grows decode ops Brain.initialize_history
  rw [← ht]
  rfl

/-- A concrete page for instantiating the page oracle: `#pw` is a password
field, every other selector resolves with no `type` attribute, and every
Playwright interaction succeeds. -/
def pagePW : PageModel where
  getAttr := fun sel attr =>
    if sel = "#pw" && attr = "type" then .ok (some "password") else .ok none
  clickRun := fun _ => none
  fillRun := fun _ _ => none
  waitRun := fun _ _ => none

/-- C2 counterexample: two of the selector-taking actions violate the
claim on the concrete password field `#pw`.  `browser_wait_for_response`
performs no credential check at all — it reports the element as appeared
instead of returning a `PAUSE:` result — and `browser_type_and_submit`
with a password *submit* selector suppresses the click but swallows the
inner `PAUSE:` text (its code only checks the click result for `"Error"`)
and returns a success message that is not a pause result. -/
theorem c2_counterexample :
    pagePW.getAttr "#pw" "type" = .ok (some "password")
  ∧ Toolbox.browser_wait_for_response (some pagePW) "#pw" 30000 =
      (.ok "Element \x27#pw\x27 appeared.", [.waitFor "#pw" 30000])
  ∧ strStartsWith "Element \x27#pw\x27 appeared." "PAUSE:" = false
  ∧ Toolbox.browser_type_and_submit (some pagePW) "#user" "hello" "#pw" =
      (.ok "Successfully typed and submitted.", [.fill "#user" "hello"])
  ∧ strStartsWith "Successfully typed and submitted." "PAUSE:" = false :=
  ⟨rfl, rfl, by decide, rfl, by decide⟩

/-- C2 amended: `browser_click` and `browser_type_text` (and hence
`browser_type_and_submit` for its *type* selector) short-circuit before
any Playwright interaction and return the `PAUSE:` result whenever the
first element matched by the selector has type `"password"`.  For the
*submit* selector, the click is still short-circuited (no interaction is
performed) but the composite returns `"Successfully typed and submitted."`
rather than a pause result; and `browser_wait_for_response` performs no
password check — its behavior depends only on the wait outcome. -/
theorem c2_password_amended :
    (∀ (page : PageModel) (sel text : String),
      page.getAttr sel "type" = .ok (some "password") →
      Toolbox.browser_click (some page) sel =
        (.ok "PAUSE: Password field detected.", [])
      ∧ Toolbox.browser_type_text (some page) sel text =
        (.ok "PAUSE: Password field detected.", []))
  ∧ (∀ (page : PageModel) (tsel text ssel : String),
      page.getAttr tsel "type" = .ok (some "password") →
      Toolbox.browser_type_and_submit (some page) tsel text ssel =
        (.ok "PAUSE: Password field detected.", []))
  ∧ (∀ (page : PageModel) (tsel text ssel tr : String) (effs : List BrowserEff),
      Toolbox.browser_type_text (some page) tsel text = (.ok tr, effs) →
      strContains tr "PAUSE" = false → strContains tr "Error" = false →
      page.getAttr ssel "type" = .ok (some "password") →
      Toolbox.browser_type_and_submit (some page) tsel text ssel =
        (.ok "Successfully typed and submitted.", effs))
  ∧ (∀ (p1 p2 : PageModel) (sel : String) (t : Int),
      p1.waitRun = p2.waitRun →
      Toolbox.browser_wait_for_response (some p1) sel t =
        Toolbox.browser_wait_for_response (some p2) sel t) := by
  refine ⟨?_, ?_, ?_, ?_⟩
  · intro page sel text h
    exact ⟨by simp [Toolbox.browser_click, h],
           by simp [Toolbox.browser_type_text, h]⟩
  · intro page tsel text ssel h
    have ht : Toolbox.browser_type_text (some page) tsel text =
        (.ok "PAUSE: Password field detected.", []) := by
      simp [Toolbox.browser_type_text, h]
    have hp : strContains "PAUSE: Password field detected." "PAUSE" = true := by
      decide
    simp [Toolbox.browser_type_and_submit, ht, hp]
  · intro page tsel text ssel tr effs htt hP hE hpw
    have hc : Toolbox.browser_click (some page) ssel =
        (.ok "PAUSE: Password field detected.", []) := by
      simp [Toolbox.browser_click, hpw]
    have hpe : strContains "PAUSE: Password field detected." "Error" = false := by
      decide
    simp [Toolbox.browser_type_and_submit, htt, hP, hE, hc, hpe]
  · intro p1 p2 sel t h
    simp [Toolbox.browser_wait_for_response, h]

/-- Witness for the amended C2 statement on the concrete page `pagePW`. -/
theorem c2_password_amended_witness :
    Toolbox.browser_click (some pagePW) "#pw" =
      (.ok "PAUSE: Password field detected.", [])
    ∧ Toolbox.browser_type_and_submit (some pagePW) "#pw" "secret" "#go" =
        (.ok "PAUSE: Password field detected.", [])
    ∧ Toolbox.browser_type_and_submit (some pagePW) "#user" "hello" "#pw" =
        (.ok "Successfully typed and submitted.", [.fill "#user" "hello"]) :=
  ⟨(c2_password_amended.1 pagePW "#pw" "" rfl).1,
   c2_password_amended.2.1 pagePW "#pw" "secret" "#go" rfl,
   c2_password_amended.2.2.1 pagePW "#user" "hello" "#pw"
     "Typed text into \x27#user\x27." [.fill "#user" "hello"]
     rfl (by decide) (by decide) rfl⟩

/-- C10: the traversal guard — any path containing `".."` or starting with
`"/"` makes all three file tools return the fixed refusal string with no
filesystem call performed; and, past that guard, `write_file` refuses with
the overwrite error (and performs no write) exactly when the path both
already exists and is listed in the protected files, while a protected
path that does not yet exist is written without this check. -/
theorem c10_file_guards :
    (∀ (fs : FsModel) (pf : List String) (path content : String),
      (strContains path ".." = true ∨ strStartsWith path "/" = true) →
      Toolbox.list_files fs path =
        ("Error: Access to parent or absolute directories is not allowed.", [])
      ∧ Toolbox.read_file fs path =
        ("Error: Access to parent or absolute directories is not allowed.", [])
      ∧ Toolbox.write_file fs pf path content =
        ("Error: Access to parent or absolute directories is not allowed.", []))
  ∧ (∀ (fs : FsModel) (pf : List String) (path content : String),
      strContains path ".." = false → strStartsWith path "/" = false →
      (Toolbox.write_file fs pf path content =
          ("Error: Overwriting \x27" ++ path ++ "\x27 is not allowed.", [])
        ↔ (fs.pathExists path = true ∧ pf.contains path = true)))
  ∧ (∀ (fs : FsModel) (pf : List String) (path content : String),
      strContains path ".." = false → strStartsWith path "/" = false →
      fs.pathExists path = false →
      (Toolbox.write_file fs pf path content).2 = [.writeF path content]
      ∧ (fs.writeRun path content = none →
          Toolbox.write_file fs pf path content =
            ("File \x27" ++ path ++ "\x27 written successfully.",
             [.writeF path content]))) := by
  refine ⟨?_, ?_, ?_⟩
  · intro fs pf path content h
    rcases h with h | h <;>
      exact ⟨by simp [Toolbox.list_files, h], by simp [Toolbox.read_file, h],
             by simp [Toolbox.write_file, h]⟩
  · intro fs pf path content h1 h2
    constructor
    · intro heq
      by_cases hpe : fs.pathExists path = true
      · by_cases hc : pf.contains path = true
        · exact ⟨hpe, hc⟩
        · rw [Bool.not_eq_true] at hc
          revert heq
          simp only [Toolbox.write_file, h1, h2, hpe, hc, Bool.or_self,
            Bool.false_eq_true, if_false, Bool.and_false]
          cases fs.writeRun path content <;> simp
      · rw [Bool.not_eq_true] at hpe
        revert heq
        simp only [Toolbox.write_file, h1, h2, hpe, Bool.or_self,
          Bool.false_eq_true, if_false, Bool.false_and]
        cases fs.writeRun path content <;> simp
    · rintro ⟨hpe, hc⟩
      have hm : path ∈ pf := List.mem_of_elem_eq_true hc
      simp [Toolbox.write_file, h1, h2, hpe, hc, hm]
  · intro fs pf path content h1 h2 hpe
    constructor
    · simp only [Toolbox.write_file, h1, h2, hpe, Bool.or_self,
        Bool.false_eq_true, if_false, Bool.false_and]
      cases fs.writeRun path content <;> simp
    · intro hw
      simp [Toolbox.write_file, h1, h2, hpe, hw]

/-- A concrete filesystem oracle for the C10 witness: only `config.toml`
exists and every write succeeds. -/
def fsDemo : FsModel where
  listdirRun := fun _ => .ok ["a.txt", "config.toml"]
  readRun := fun _ => .ok "data"
  pathExists := fun p => p == "config.toml"
  writeRun := fun _ _ => none

/-- Witness for C10 on concrete paths: a traversal path is refused, the
existing protected `config.toml` is overwrite-refused, and a fresh path is
written. -/
theorem c10_file_guards_witness :
    Toolbox.write_file fsDemo ["config.toml"] "../x" "c" =
      ("Error: Access to parent or absolute directories is not allowed.", [])
    ∧ Toolbox.write_file fsDemo ["config.toml"] "config.toml" "c" =
        ("Error: Overwriting \x27" ++ "config.toml" ++ "\x27 is not allowed.", [])
    ∧ Toolbox.write_file fsDemo ["config.toml"] "new.txt" "c" =
        ("File \x27" ++ "new.txt" ++ "\x27 written successfully.",
         [.writeF "new.txt" "c"]) :=
  ⟨(c10_file_guards.1 fsDemo ["config.toml"] "../x" "c" (Or.inl (by decide))).2.2,
   (c10_file_guards.2.1 fsDemo ["config.toml"] "config.toml" "c"
      (by decide) (by decide)).mpr ⟨by decide, by decide⟩,
   (c10_file_guards.2.2 fsDemo ["config.toml"] "new.txt" "c"
      (by decide) (by decide) (by decide)).2 rfl⟩
